import Mathlib

/-!
Shallow embedding of the news-aggregator pipeline: the three provider
adapters (`fetchNewsApiArticles`, `fetchNYTArticles`, `fetchGuardianArticles`
from `services/api.ts`), the aggregation service (`searchAllNews`,
`getTopHeadlines` from `services/newsService.ts`), the React-Query
orchestrator (`useMultiSourceNews`, `useCombinedNews` from the combined-news
hook), and the preference migration of the personalization drawer.

HTTP transport is abstracted away: each adapter is embedded as the pure
normalization it applies to the decoded upstream payload, and the
aggregation layer is parametrized by an environment mapping each planned
API call to its outcome (`.ok` payload or `.error`, i.e. a resolved or
rejected promise).  `new Date(s).getTime()` is abstracted as a timestamp
function `ts : String → Int`.
-/

namespace NewsAggregator

/-- JavaScript `s || d` on strings: `""` is falsy, anything else truthy. -/
def jsOr (s d : String) : String := if s = "" then d else s

/-- JavaScript `x || d` where `x : string | null | undefined`
(`none` models both `null` and `undefined`). -/
def jsOrOpt (o : Option String) (d : String) : String :=
  match o with
  | none => d
  | some s => if s = "" then d else s

/-- JavaScript `x || undefined` for `x : string | null | undefined`. -/
def jsOrUndef (o : Option String) : Option String :=
  match o with
  | none => none
  | some s => if s = "" then none else some s

/-- JavaScript truthiness of an optional string (`Boolean(x)`):
absent and `""` are falsy. -/
def truthy (o : Option String) : Bool :=
  match o with
  | none => false
  | some s => s != ""

/-- `DEFAULT_IMAGE_URL` from `services/api.ts`. -/
def DEFAULT_IMAGE_URL : String :=
  "https://via.placeholder.com/400x200?text=No+Image+Available"

/-- The `source` field of a normalized article (`{id, name}`). -/
structure SourceInfo where
  id : String
  name : String
deriving DecidableEq, Repr

/-- `NewsArticle` from `types/news.ts` (the common normalized shape). -/
structure NewsArticle where
  id : String
  source : SourceInfo
  title : String
  description : String
  url : String
  imageUrl : String
  publishedAt : String
  author : Option String
deriving DecidableEq, Repr

/-- `NewsApiArticle` from `types/news.ts`: the upstream NewsAPI shape.
`source.id` and `author` are `string | null`. -/
structure NewsApiArticle where
  sourceId : Option String
  sourceName : String
  author : Option String
  title : String
  description : String
  url : String
  urlToImage : String
  publishedAt : String
  content : String
deriving DecidableEq, Repr

/-- One entry of an NYT `multimedia` array (`{ url: string }`). -/
structure NYTMedia where
  url : String
deriving DecidableEq, Repr

/-- An NYT top-stories result / search doc as consumed by
`fetchNYTArticles`; `multimedia` and `byline` are accessed with optional
chaining (`?.`) in the source, hence `Option`. -/
structure NYTDoc where
  uri : String
  title : String
  abstract : String
  url : String
  multimedia : Option (List NYTMedia)
  published_date : String
  byline : Option String
deriving DecidableEq, Repr

/-- The optional `fields` object of a Guardian result. -/
structure GuardianFields where
  thumbnail : Option String
  bodyText : Option String
  trailText : Option String
  byline : Option String
deriving DecidableEq, Repr

/-- `GuardianArticle` from `types/news.ts`. -/
structure GuardianArticle where
  id : String
  webTitle : String
  webUrl : String
  webPublicationDate : String
  fields : Option GuardianFields
deriving DecidableEq, Repr

/-- The normalization step of `fetchNewsApiArticles`
(`services/api.ts`), applied to the decoded `response.data.articles`:
`id := article.url`, `source.id := article.source.id || 'unknown'`,
`imageUrl := article.urlToImage || DEFAULT_IMAGE_URL`,
`author := article.author || undefined`. -/
def fetchNewsApiArticles (articles : List NewsApiArticle) : List NewsArticle :=
  articles.map fun a =>
    { id := a.url
      source := { id := jsOrOpt a.sourceId "unknown", name := a.sourceName }
      title := a.title
      description := a.description
      url := a.url
      imageUrl := jsOr a.urlToImage DEFAULT_IMAGE_URL
      publishedAt := a.publishedAt
      author := jsOrUndef a.author }

/-- `byline?.replace(/^By /, '')`: strip one leading `"By "`. -/
def stripByline (s : String) : String :=
  if s.startsWith "By " then s.drop 3 else s

/-- The filter-and-normalize step of `fetchNYTArticles`
(`services/api.ts`), applied to the decoded docs/results array:
drops entries lacking a truthy `title` or `abstract`, then maps, with
`source := { id: 'nyt', name: 'New York Times' }`,
`imageUrl := article.multimedia?.[0]?.url || DEFAULT_IMAGE_URL`,
`author := article.byline?.replace(/^By /, '') || undefined`. -/
def fetchNYTArticles (docs : List NYTDoc) : List NewsArticle :=
  (docs.filter fun d => d.title != "" && d.abstract != "").map fun d =>
    { id := d.uri
      source := { id := "nyt", name := "New York Times" }
      title := d.title
      description := d.abstract
      url := d.url
      imageUrl := jsOrOpt ((d.multimedia.bind List.head?).map NYTMedia.url) DEFAULT_IMAGE_URL
      publishedAt := d.published_date
      author := jsOrUndef (d.byline.map stripByline) }

/-- The normalization step of `fetchGuardianArticles`
(`services/api.ts`), applied to `response.data.response.results`:
`source := { id: 'guardian', name: 'The Guardian' }`,
`description := ''`, no `author` key,
`imageUrl := article.fields?.thumbnail || DEFAULT_IMAGE_URL`. -/
def fetchGuardianArticles (results : List GuardianArticle) : List NewsArticle :=
  results.map fun a =>
    { id := a.id
      source := { id := "guardian", name := "The Guardian" }
      title := a.webTitle
      description := ""
      url := a.webUrl
      imageUrl := jsOrOpt (a.fields.bind GuardianFields.thumbnail) DEFAULT_IMAGE_URL
      publishedAt := a.webPublicationDate
      author := none }

/-- `NewsSource` from `types/news.ts`: `'newsapi' | 'guardian' | 'nytimes'`. -/
inductive NewsSource where
  | newsapi
  | guardian
  | nytimes
deriving DecidableEq, Repr

/-- The string value of a `NewsSource` tag (in TypeScript the tag IS the
string; the embedding separates the enumeration from its spelling). -/
def sourceTag : NewsSource → String
  | .newsapi => "newsapi"
  | .guardian => "guardian"
  | .nytimes => "nytimes"

/-- `NewsFilters` from `types/news.ts`: every field optional. -/
structure NewsFilters where
  searchQuery : Option String := none
  category : Option String := none
  fromDate : Option String := none
  toDate : Option String := none
  author : Option String := none
deriving DecidableEq, Repr

/-- A concrete adapter invocation, recording which adapter is called and
with which arguments (mirrors the call sites in `newsService.ts`). -/
inductive ApiCall where
  | guardianCall (query sec fromDate toDate author : Option String)
  | nytCall (sec : String)
  | newsApiCall (query category fromDate toDate author : Option String)
deriving DecidableEq, Repr

/-- The per-source branch of `searchAllNews` (`newsService.ts`), as the
adapter call it plans: `none` means the branch returns `[]` without
invoking any adapter.  NYT is skipped when `filters.searchQuery` is
truthy; otherwise NYT gets `filters.category || 'all'`; Guardian and
NewsAPI get `(searchQuery, category, fromDate, toDate, author)`. -/
def searchSourcePlan (filters : NewsFilters) : NewsSource → Option ApiCall
  | .nytimes =>
      if truthy filters.searchQuery then none
      else some (.nytCall (jsOrOpt filters.category "all"))
  | .guardian =>
      some (.guardianCall filters.searchQuery filters.category
        filters.fromDate filters.toDate filters.author)
  | .newsapi =>
      some (.newsApiCall filters.searchQuery filters.category
        filters.fromDate filters.toDate filters.author)

/-- The per-source branch of `getTopHeadlines` (`newsService.ts`):
Guardian gets `(undefined, category)`, NYT gets `category || 'all'`,
NewsAPI gets `(undefined, category)`. -/
def headlinesSourcePlan (category : Option String) : NewsSource → Option ApiCall
  | .guardian => some (.guardianCall none category none none none)
  | .nytimes => some (.nytCall (jsOrOpt category "all"))
  | .newsapi => some (.newsApiCall none category none none none)

/-- An environment assigning each adapter call its settled outcome:
`.ok` a normalized article list (resolved) or `.error` (rejected). -/
abbrev ApiEnv := ApiCall → Except String (List NewsArticle)

/-- Run one planned per-source branch under the inner `try/catch` of
`newsService.ts`: a skipped branch contributes `[]`; a rejected adapter
call is caught and contributes `[]`. -/
def runPlannedCall (env : ApiEnv) : Option ApiCall → List NewsArticle
  | none => []
  | some c =>
      match env c with
      | .ok articles => articles
      | .error _ => []

/-- The comparison relation realized by the comparator
`(a, b) => new Date(b.publishedAt).getTime() - new Date(a.publishedAt).getTime()`. -/
def dateDesc (ts : String → Int) (a b : NewsArticle) : Prop :=
  ts b.publishedAt ≤ ts a.publishedAt

instance (ts : String → Int) : DecidableRel (dateDesc ts) := fun a b =>
  inferInstanceAs (Decidable (ts b.publishedAt ≤ ts a.publishedAt))

/-- The sort of `newsService.ts`:
`allArticles.sort((a, b) => new Date(b.publishedAt).getTime() - new Date(a.publishedAt).getTime())`,
i.e. a stable sort (guaranteed by `Array.prototype.sort`) descending by
timestamp, embedded as a stable insertion sort. -/
def sortByDateDesc (ts : String → Int) (l : List NewsArticle) : List NewsArticle :=
  l.insertionSort (dateDesc ts)

/-- The merged list built by `searchAllNews`: per-source results in the
sources' positional order (`Promise.all`), flattened, then sorted. -/
def searchAllNewsList (ts : String → Int) (env : ApiEnv)
    (sources : List NewsSource) (filters : NewsFilters) : List NewsArticle :=
  sortByDateDesc ts
    ((sources.map fun s => runPlannedCall env (searchSourcePlan filters s)).flatten)

/-- `searchAllNews` (`newsService.ts`): always resolves — every
per-source failure is caught inside the map, and the remaining pure
orchestration (flatten + sort) cannot throw, so the outer `catch` that
would re-raise is unreachable. -/
def searchAllNews (ts : String → Int) (env : ApiEnv)
    (sources : List NewsSource) (filters : NewsFilters) :
    Except String (List NewsArticle) :=
  .ok (searchAllNewsList ts env sources filters)

/-- The merged list built by `getTopHeadlines`. -/
def getTopHeadlinesList (ts : String → Int) (env : ApiEnv)
    (sources : List NewsSource) (category : Option String) : List NewsArticle :=
  sortByDateDesc ts
    ((sources.map fun s => runPlannedCall env (headlinesSourcePlan category s)).flatten)

/-- `getTopHeadlines` (`newsService.ts`); always resolves, as for
`searchAllNews`. -/
def getTopHeadlines (ts : String → Int) (env : ApiEnv)
    (sources : List NewsSource) (category : Option String) :
    Except String (List NewsArticle) :=
  .ok (getTopHeadlinesList ts env sources category)

/-- Which service call `useMultiSourceNews`'s `queryFn` makes. -/
inductive QueryPlan where
  | searchAll (sources : List NewsSource) (filters : NewsFilters)
  | topHeadlines (sources : List NewsSource) (category : Option String)
deriving DecidableEq, Repr

/-- The routing of `useMultiSourceNews` (combined-news hook):
`isSearching = Boolean(searchQuery || fromDate || toDate)`; when
searching it calls `searchAllNews(sources, filters)`, otherwise
`getTopHeadlines(sources, filters.category)`. -/
def useMultiSourceNews (sources : List NewsSource) (filters : NewsFilters) :
    QueryPlan :=
  if truthy filters.searchQuery || truthy filters.fromDate || truthy filters.toDate
  then .searchAll sources filters
  else .topHeadlines sources filters.category

/-- The record returned by `useCombinedNews`. -/
structure CombinedNewsResult where
  articles : List NewsArticle
  isLoading : Bool
  isError : Bool
  failedSources : List NewsSource
  hasPartialData : Bool
deriving DecidableEq, Repr

/-- The `failedSources` heuristic of `useCombinedNews`:
`sources.filter(source => articles.filter(a => a.source.id === source).length === 0)`. -/
def failedSourcesOf (sources : List NewsSource) (articles : List NewsArticle) :
    List NewsSource :=
  sources.filter fun s =>
    (articles.filter fun a => a.source.id == sourceTag s).length == 0

/-- `useCombinedNews` (combined-news hook), as a function of the query
result it destructures (`articles`, `isLoading`, `isError`):
`hasPartialData = articles.length > 0 && failedSources.length < sources.length`. -/
def useCombinedNews (sources : List NewsSource) (articles : List NewsArticle)
    (isLoading isError : Bool) : CombinedNewsResult :=
  { articles := articles
    isLoading := isLoading
    isError := isError
    failedSources := failedSourcesOf sources articles
    hasPartialData :=
      decide (articles.length > 0) &&
        decide ((failedSourcesOf sources articles).length < sources.length) }

/-- An environment realized by actual upstream payloads: each adapter
call decodes its provider's payload (or rejects) and normalizes it with
the corresponding adapter mapping. -/
def envFromUpstream
    (nytApi : String → Except String (List NYTDoc))
    (guardianApi : Option String → Option String → Option String →
      Option String → Option String → Except String (List GuardianArticle))
    (newsApi : Option String → Option String → Option String →
      Option String → Option String → Except String (List NewsApiArticle)) :
    ApiEnv := fun c =>
  match c with
  | .guardianCall q s f t a => (guardianApi q s f t a).map fetchGuardianArticles
  | .nytCall sec => (nytApi sec).map fetchNYTArticles
  | .newsApiCall q cat f t a => (newsApi q cat f t a).map fetchNewsApiArticles

/-- The stored preferences record of the personalization drawer, as
parsed from local storage: `authorFilter` may be absent (legacy shape)
and `authors` is the legacy plural array, present or absent. -/
structure StoredPreferences where
  categories : List String
  authorFilter : Option String
  sources : List String
  authors : Option (List String)
deriving DecidableEq, Repr

/-- The legacy-format migration performed by the personalization drawer
on load: `if (parsed.authors && Array.isArray(parsed.authors)) {
parsed.authorFilter = parsed.authors[0] || ""; delete parsed.authors; }`
(an array, even empty, is truthy in JavaScript). -/
def migratePreferences (p : StoredPreferences) : StoredPreferences :=
  match p.authors with
  | some l => { p with authorFilter := some (jsOrOpt l.head? ""), authors := none }
  | none => p

/-- `Promise.all` slot-filling: settle the promises in the order given
by `order`, each settling event writing source `i`'s result into slot
`i` regardless of when it arrives. -/
def settleInto (results : List (List NewsArticle)) :
    List Nat → List (Option (List NewsArticle)) → List (Option (List NewsArticle))
  | [], slots => slots
  | i :: rest, slots => settleInto results rest (slots.set i results[i]?)

/-- `Promise.all` over the per-source result lists, with the settling
order made explicit. -/
def promiseAll (results : List (List NewsArticle)) (order : List Nat) :
    List (Option (List NewsArticle)) :=
  settleInto results order (List.replicate results.length none)

/-- Read the settled slots back as per-source lists. -/
def collectSettled (slots : List (Option (List NewsArticle))) :
    List (List NewsArticle) :=
  slots.map fun o => o.getD []

theorem sortByDateDesc_perm (ts : String → Int) (l : List NewsArticle) :
    (sortByDateDesc ts l).Perm l :=
  List.perm_insertionSort _ l

theorem sortByDateDesc_sorted (ts : String → Int) (l : List NewsArticle) :
    (sortByDateDesc ts l).Pairwise (dateDesc ts) := by
  haveI : IsTotal NewsArticle (dateDesc ts) :=
    ⟨fun a b => le_total (ts b.publishedAt) (ts a.publishedAt)⟩
  haveI : IsTrans NewsArticle (dateDesc ts) :=
    ⟨fun _ _ _ hab hbc => le_trans hbc hab⟩
  exact List.sorted_insertionSort (dateDesc ts) l

theorem filter_orderedInsert_key (ts : String → Int) (k : Int)
    (a : NewsArticle) (l : List NewsArticle) :
    (List.orderedInsert (dateDesc ts) a l).filter
        (fun x => ts x.publishedAt == k) =
      (a :: l).filter (fun x => ts x.publishedAt == k) := by
  induction l with
  | nil => rfl
  | cons b t ih =>
    by_cases h : dateDesc ts a b
    · simp only [List.orderedInsert, if_pos h]
    · simp only [List.orderedInsert, if_neg h]
      have hlt : ts a.publishedAt < ts b.publishedAt := by
        simpa [dateDesc] using h
      by_cases ha : ts a.publishedAt = k
      · have hb : ¬ ts b.publishedAt = k := by omega
        simp [List.filter_cons, ih, ha, hb]
      · by_cases hb : ts b.publishedAt = k <;>
          simp [List.filter_cons, ih, ha, hb]

theorem filter_sortByDateDesc (ts : String → Int) (k : Int)
    (l : List NewsArticle) :
    (sortByDateDesc ts l).filter (fun x => ts x.publishedAt == k) =
      l.filter (fun x => ts x.publishedAt == k) := by
  induction l with
  | nil => rfl
  | cons a t ih =>
    have hs : sortByDateDesc ts (a :: t) =
        List.orderedInsert (dateDesc ts) a (sortByDateDesc ts t) := rfl
    rw [hs, filter_orderedInsert_key]
    simp [List.filter_cons, ih]

theorem jsOr_ne_empty (s d : String) (hd : d ≠ "") : jsOr s d ≠ "" := by
  unfold jsOr
  by_cases hs : s = "" <;> simp [hs, hd]

theorem jsOrOpt_ne_empty (o : Option String) (d : String) (hd : d ≠ "") :
    jsOrOpt o d ≠ "" := by
  unfold jsOrOpt
  cases o with
  | none => exact hd
  | some s => by_cases hs : s = "" <;> simp [hs, hd]

theorem mem_fetchGuardianArticles (gl : List GuardianArticle) (a : NewsArticle)
    (h : a ∈ fetchGuardianArticles gl) :
    ∃ g ∈ gl,
      a = { id := g.id
            source := { id := "guardian", name := "The Guardian" }
            title := g.webTitle
            description := ""
            url := g.webUrl
            imageUrl := jsOrOpt (g.fields.bind GuardianFields.thumbnail) DEFAULT_IMAGE_URL
            publishedAt := g.webPublicationDate
            author := none } := by
  obtain ⟨g, hg, rfl⟩ := List.mem_map.mp h
  exact ⟨g, hg, rfl⟩

theorem mem_fetchNewsApiArticles (arts : List NewsApiArticle) (a : NewsArticle)
    (h : a ∈ fetchNewsApiArticles arts) :
    ∃ u ∈ arts,
      a = { id := u.url
            source := { id := jsOrOpt u.sourceId "unknown", name := u.sourceName }
            title := u.title
            description := u.description
            url := u.url
            imageUrl := jsOr u.urlToImage DEFAULT_IMAGE_URL
            publishedAt := u.publishedAt
            author := jsOrUndef u.author } := by
  obtain ⟨u, hu, rfl⟩ := List.mem_map.mp h
  exact ⟨u, hu, rfl⟩

theorem mem_fetchNYTArticles (docs : List NYTDoc) (a : NewsArticle)
    (h : a ∈ fetchNYTArticles docs) :
    ∃ d ∈ docs, d.title ≠ "" ∧ d.abstract ≠ "" ∧
      a = { id := d.uri
            source := { id := "nyt", name := "New York Times" }
            title := d.title
            description := d.abstract
            url := d.url
            imageUrl := jsOrOpt ((d.multimedia.bind List.head?).map NYTMedia.url)
              DEFAULT_IMAGE_URL
            publishedAt := d.published_date
            author := jsOrUndef (d.byline.map stripByline) } := by
  obtain ⟨d, hd, rfl⟩ := List.mem_map.mp h
  have hmem := List.mem_filter.mp hd
  have hcond := hmem.2
  simp only [Bool.and_eq_true, bne_iff_ne, ne_eq] at hcond
  exact ⟨d, hmem.1, hcond.1, hcond.2, rfl⟩

/-- C6: with a truthy `searchQuery`, the NYT branch of `searchAllNews`
plans no adapter call (short-circuits) and contributes the empty array,
while the Guardian and NewsAPI branches still plan their search-variant
calls with the given filters. -/
theorem nyt_search_short_circuit (env : ApiEnv) (filters : NewsFilters)
    (h : truthy filters.searchQuery = true) :
    searchSourcePlan filters .nytimes = none ∧
    runPlannedCall env (searchSourcePlan filters .nytimes) = [] ∧
    searchSourcePlan filters .guardian =
      some (.guardianCall filters.searchQuery filters.category
        filters.fromDate filters.toDate filters.author) ∧
    searchSourcePlan filters .newsapi =
      some (.newsApiCall filters.searchQuery filters.category
        filters.fromDate filters.toDate filters.author) := by
  have h1 : searchSourcePlan filters .nytimes = none := by
    simp [searchSourcePlan, h]
  exact ⟨h1, by rw [h1]; rfl, rfl, rfl⟩

theorem nyt_search_short_circuit_witness :
    searchSourcePlan { searchQuery := some "bitcoin" } .nytimes = none ∧
    runPlannedCall (fun _ => .ok [])
      (searchSourcePlan { searchQuery := some "bitcoin" } .nytimes) = [] ∧
    searchSourcePlan { searchQuery := some "bitcoin" } .guardian =
      some (.guardianCall (some "bitcoin") none none none none) ∧
    searchSourcePlan { searchQuery := some "bitcoin" } .newsapi =
      some (.newsApiCall (some "bitcoin") none none none none) :=
  nyt_search_short_circuit (fun _ => .ok []) { searchQuery := some "bitcoin" } rfl

/-- C7: `useMultiSourceNews` routes to `searchAllNews` exactly when one
of `searchQuery`, `fromDate`, `toDate` is truthy; a filters object
carrying only a category routes to `getTopHeadlines` with that
category. -/
theorem useMultiSourceNews_routing (sources : List NewsSource)
    (filters : NewsFilters) :
    (useMultiSourceNews sources filters = .searchAll sources filters ↔
      (truthy filters.searchQuery = true ∨ truthy filters.fromDate = true ∨
        truthy filters.toDate = true)) ∧
    (truthy filters.searchQuery = false → truthy filters.fromDate = false →
      truthy filters.toDate = false →
      useMultiSourceNews sources filters = .topHeadlines sources filters.category) ∧
    (∀ cat : String,
      useMultiSourceNews sources { category := some cat } =
        .topHeadlines sources (some cat)) := by
  refine ⟨?_, ?_, fun cat => rfl⟩
  · unfold useMultiSourceNews
    by_cases h : (truthy filters.searchQuery || truthy filters.fromDate ||
        truthy filters.toDate) = true
    · simp only [if_pos h, true_iff]
      simpa [Bool.or_eq_true, or_assoc] using h
    · simp only [if_neg h]
      constructor
      · intro hq
        exact absurd hq (by simp)
      · intro hq
        exact absurd (by simpa [Bool.or_eq_true, or_assoc] using hq) h
  · intro h1 h2 h3
    unfold useMultiSourceNews
    simp [h1, h2, h3]

theorem useMultiSourceNews_routing_witness :
    (useMultiSourceNews [.guardian] { searchQuery := some "ai" } =
        .searchAll [.guardian] { searchQuery := some "ai" } ↔
      (truthy (some "ai") = true ∨ truthy (none : Option String) = true ∨
        truthy (none : Option String) = true)) ∧
    useMultiSourceNews [.guardian] { category := some "sports" } =
      .topHeadlines [.guardian] (some "sports") :=
  ⟨(useMultiSourceNews_routing [.guardian] { searchQuery := some "ai" }).1,
    (useMultiSourceNews_routing [.guardian] { category := some "sports" }).2.1
      rfl rfl rfl⟩

/-- C9: a stored preference record carrying a legacy `authors` array
loads with `authorFilter` set to the array's first element (the empty
string when the array is empty) and with the `authors` field removed. -/
theorem migratePreferences_authors (p : StoredPreferences) (l : List String)
    (h : p.authors = some l) :
    (migratePreferences p).authorFilter = some (l.headD "") ∧
    (migratePreferences p).authors = none := by
  unfold migratePreferences
  rw [h]
  refine ⟨?_, rfl⟩
  cases l with
  | nil => rfl
  | cons s t =>
    simp only [List.head?_cons, List.headD_cons, jsOrOpt]
    by_cases hs : s = "" <;> simp [hs]

theorem migratePreferences_authors_witness :
    (migratePreferences
      { categories := ["technology"], authorFilter := none,
        sources := ["guardian"], authors := some ["Jane Doe"] }).authorFilter =
      some "Jane Doe" ∧
    (migratePreferences
      { categories := ["technology"], authorFilter := none,
        sources := ["guardian"], authors := some ["Jane Doe"] }).authors = none :=
  migratePreferences_authors
    { categories := ["technology"], authorFilter := none,
      sources := ["guardian"], authors := some ["Jane Doe"] }
    ["Jane Doe"] rfl

/-- C10: every article normalized by the Guardian adapter has an empty
`description` and no `author`, whatever the upstream result carried in
`fields.trailText`, `fields.bodyText` or `fields.byline`. -/
theorem fetchGuardianArticles_drops_body_and_byline
    (gl : List GuardianArticle) (a : NewsArticle)
    (h : a ∈ fetchGuardianArticles gl) :
    a.description = "" ∧ a.author = none := by
  obtain ⟨g, _, rfl⟩ := mem_fetchGuardianArticles gl a h
  exact ⟨rfl, rfl⟩

theorem fetchGuardianArticles_drops_body_and_byline_witness :
    (({ id := "world/one", source := ⟨"guardian", "The Guardian"⟩,
         title := "A headline", description := "", url := "https://g/one",
         imageUrl := "https://g/thumb.jpg", publishedAt := "2024-05-01",
         author := none } : NewsArticle).description = "" ∧
      ({ id := "world/one", source := ⟨"guardian", "The Guardian"⟩,
          title := "A headline", description := "", url := "https://g/one",
          imageUrl := "https://g/thumb.jpg", publishedAt := "2024-05-01",
          author := none } : NewsArticle).author = none) :=
  fetchGuardianArticles_drops_body_and_byline
    [{ id := "world/one", webTitle := "A headline", webUrl := "https://g/one",
       webPublicationDate := "2024-05-01",
       fields := some { thumbnail := some "https://g/thumb.jpg",
                        bodyText := some "Full body text",
                        trailText := some "A trail",
                        byline := some "Jane Doe" } }]
    _ (by decide)

/-- C4: both `searchAllNews` and `getTopHeadlines` return the
concatenation (in source order) of the surviving per-source arrays,
sorted by `publishedAt` descending under the timestamp comparison, with
equal-timestamp entries kept in their concatenation order (the returned
list's per-key subsequences coincide with the concatenation's). -/
theorem merge_sorted_and_stable (ts : String → Int) (env : ApiEnv)
    (sources : List NewsSource) (filters : NewsFilters)
    (category : Option String) :
    (∃ r, searchAllNews ts env sources filters = .ok r ∧
      r.Perm ((sources.map fun s =>
        runPlannedCall env (searchSourcePlan filters s)).flatten) ∧
      r.Pairwise (dateDesc ts) ∧
      ∀ k : Int, r.filter (fun x => ts x.publishedAt == k) =
        ((sources.map fun s =>
          runPlannedCall env (searchSourcePlan filters s)).flatten).filter
          (fun x => ts x.publishedAt == k)) ∧
    (∃ r, getTopHeadlines ts env sources category = .ok r ∧
      r.Perm ((sources.map fun s =>
        runPlannedCall env (headlinesSourcePlan category s)).flatten) ∧
      r.Pairwise (dateDesc ts) ∧
      ∀ k : Int, r.filter (fun x => ts x.publishedAt == k) =
        ((sources.map fun s =>
          runPlannedCall env (headlinesSourcePlan category s)).flatten).filter
          (fun x => ts x.publishedAt == k)) :=
  ⟨⟨searchAllNewsList ts env sources filters, rfl,
      sortByDateDesc_perm ts _, sortByDateDesc_sorted ts _,
      fun k => filter_sortByDateDesc ts k _⟩,
    ⟨getTopHeadlinesList ts env sources category, rfl,
      sortByDateDesc_perm ts _, sortByDateDesc_sorted ts _,
      fun k => filter_sortByDateDesc ts k _⟩⟩

/-- C5: when one of three selected sources' adapter calls rejects and
the other two resolve with lists `lb` and `lc`, `searchAllNews`
resolves (never re-raises the per-source failure) with a permutation of
`lb ++ lc` — every surviving article exactly once, `lb.length +
lc.length` in total. -/
theorem searchAllNews_tolerates_one_failure (ts : String → Int)
    (env : ApiEnv) (filters : NewsFilters) (a b c : NewsSource)
    (ca cb cc : ApiCall) (e : String) (lb lc : List NewsArticle)
    (hpa : searchSourcePlan filters a = some ca) (hea : env ca = .error e)
    (hpb : searchSourcePlan filters b = some cb) (heb : env cb = .ok lb)
    (hpc : searchSourcePlan filters c = some cc) (hec : env cc = .ok lc) :
    ∃ r, searchAllNews ts env [a, b, c] filters = .ok r ∧
      r.Perm (lb ++ lc) ∧ r.length = lb.length + lc.length := by
  have hl : searchAllNewsList ts env [a, b, c] filters =
      sortByDateDesc ts (lb ++ lc) := by
    unfold searchAllNewsList
    simp [runPlannedCall, hpa, hpb, hpc, hea, heb, hec]
  refine ⟨searchAllNewsList ts env [a, b, c] filters, rfl, ?_, ?_⟩
  · rw [hl]; exact sortByDateDesc_perm ts _
  · rw [hl, (sortByDateDesc_perm ts _).length_eq, List.length_append]

theorem searchAllNews_tolerates_one_failure_witness :
    ∃ r, searchAllNews (fun _ => 0)
        (fun call =>
          match call with
          | .guardianCall _ _ _ _ _ => .error "network down"
          | .newsApiCall _ _ _ _ _ =>
              .ok [{ id := "n1", source := ⟨"bbc-news", "BBC"⟩, title := "N1",
                     description := "d1", url := "n1", imageUrl := "i1",
                     publishedAt := "2024-01-02", author := none }]
          | .nytCall _ =>
              .ok [{ id := "y1", source := ⟨"nyt", "New York Times"⟩,
                     title := "Y1", description := "d2", url := "y1",
                     imageUrl := "i2", publishedAt := "2024-01-01",
                     author := none }])
        [.guardian, .newsapi, .nytimes] {} = .ok r ∧
      r.Perm ([{ id := "n1", source := ⟨"bbc-news", "BBC"⟩, title := "N1",
                 description := "d1", url := "n1", imageUrl := "i1",
                 publishedAt := "2024-01-02", author := none }] ++
              [{ id := "y1", source := ⟨"nyt", "New York Times"⟩,
                 title := "Y1", description := "d2", url := "y1",
                 imageUrl := "i2", publishedAt := "2024-01-01",
                 author := none }]) ∧
      r.length = 1 + 1 :=
  searchAllNews_tolerates_one_failure (fun _ => 0) _ {}
    .guardian .newsapi .nytimes
    (.guardianCall none none none none none)
    (.newsApiCall none none none none none)
    (.nytCall "all") "network down" _ _ rfl rfl rfl rfl rfl rfl

theorem getElem?_settleInto (results : List (List NewsArticle))
    (order : List Nat) (slots : List (Option (List NewsArticle))) (j : Nat) :
    (settleInto results order slots)[j]? =
      if j ∈ order ∧ j < slots.length then some results[j]? else slots[j]? := by
  induction order generalizing slots with
  | nil => simp [settleInto]
  | cons i rest ih =>
    rw [settleInto, ih]
    by_cases hj : j ∈ rest
    · by_cases hlen : j < slots.length <;>
        simp [hj, hlen, List.getElem?_eq_none, le_of_not_lt]
    · by_cases hij : i = j
      · subst hij
        by_cases hlen : i < slots.length <;>
          simp [hj, hlen, List.getElem?_set_self, List.getElem?_eq_none,
            le_of_not_lt]
      · have hji : ¬ j = i := fun hh => hij hh.symm
        simp [hj, hij, hji, List.getElem?_set_ne hij]

theorem promiseAll_of_perm (results : List (List NewsArticle))
    (order : List Nat) (h : order.Perm (List.range results.length)) :
    promiseAll results order = results.map some := by
  apply List.ext_getElem?
  intro j
  rw [promiseAll, getElem?_settleInto]
  have hmem : j ∈ order ↔ j < results.length := by
    rw [h.mem_iff, List.mem_range]
  by_cases hj : j < results.length
  · simp [hmem, hj, List.getElem?_eq_getElem, hj]
  · have hle : results.length ≤ j := le_of_not_lt hj
    rw [if_neg (by simp [hmem, hj])]
    rw [List.getElem?_eq_none (by simpa using hle),
      List.getElem?_eq_none (by simpa using hle)]

/-- C8: the merged list is a deterministic function of the per-source
result lists: whatever order the concurrent requests settle in,
`Promise.all` fills the positional slots identically, so the
settled-then-merged output coincides for any two settling orders and
equals the list `searchAllNews` resolves with. -/
theorem merge_deterministic_in_settling_order (ts : String → Int)
    (env : ApiEnv) (sources : List NewsSource) (filters : NewsFilters)
    (order₁ order₂ : List Nat)
    (h₁ : order₁.Perm (List.range sources.length))
    (h₂ : order₂.Perm (List.range sources.length)) :
    sortByDateDesc ts (collectSettled (promiseAll
        (sources.map fun s => runPlannedCall env (searchSourcePlan filters s))
        order₁)).flatten =
      sortByDateDesc ts (collectSettled (promiseAll
        (sources.map fun s => runPlannedCall env (searchSourcePlan filters s))
        order₂)).flatten ∧
    searchAllNews ts env sources filters =
      .ok (sortByDateDesc ts (collectSettled (promiseAll
        (sources.map fun s => runPlannedCall env (searchSourcePlan filters s))
        order₁)).flatten) := by
  have hlen : (sources.map fun s =>
      runPlannedCall env (searchSourcePlan filters s)).length = sources.length :=
    List.length_map _ _
  have e₁ := promiseAll_of_perm _ order₁ (by rw [hlen]; exact h₁)
  have e₂ := promiseAll_of_perm _ order₂ (by rw [hlen]; exact h₂)
  have hc : ∀ l : List (List NewsArticle), collectSettled (l.map some) = l := by
    intro l
    unfold collectSettled
    rw [List.map_map]
    have hid : ((fun o : Option (List NewsArticle) => o.getD []) ∘ some) =
        fun x => x := funext fun _ => rfl
    rw [hid, List.map_id']
  rw [e₁, e₂, hc]
  exact ⟨rfl, rfl⟩

theorem merge_deterministic_in_settling_order_witness :
    sortByDateDesc (fun _ => 0) (collectSettled (promiseAll
        (([.guardian, .newsapi] : List NewsSource).map fun s =>
          runPlannedCall (fun _ => .ok []) (searchSourcePlan {} s))
        [1, 0])).flatten =
      sortByDateDesc (fun _ => 0) (collectSettled (promiseAll
        (([.guardian, .newsapi] : List NewsSource).map fun s =>
          runPlannedCall (fun _ => .ok []) (searchSourcePlan {} s))
        [0, 1])).flatten ∧
    searchAllNews (fun _ => 0) (fun _ => .ok []) [.guardian, .newsapi] {} =
      .ok (sortByDateDesc (fun _ => 0) (collectSettled (promiseAll
        (([.guardian, .newsapi] : List NewsSource).map fun s =>
          runPlannedCall (fun _ => .ok []) (searchSourcePlan {} s))
        [1, 0])).flatten) :=
  merge_deterministic_in_settling_order (fun _ => 0) (fun _ => .ok [])
    [.guardian, .newsapi] {} [1, 0] [0, 1] (by decide) (by decide)

/-- C1 fails as stated: with one selected source that contributed
articles, `failedSources` is empty (no source failed), yet
`hasPartialData` is `true` — the code only checks
`failedSources.length < sources.length`, never that at least one source
failed. -/
theorem hasPartialData_counterexample :
    (useCombinedNews [.newsapi]
      [{ id := "a1", source := ⟨"newsapi", "NewsAPI"⟩, title := "T",
         description := "D", url := "u", imageUrl := "i",
         publishedAt := "2024-01-01", author := none }]
      false false).hasPartialData = true ∧
    (useCombinedNews [.newsapi]
      [{ id := "a1", source := ⟨"newsapi", "NewsAPI"⟩, title := "T",
         description := "D", url := "u", imageUrl := "i",
         publishedAt := "2024-01-01", author := none }]
      false false).failedSources = [] := by
  constructor <;> decide

/-- C1 amended: `hasPartialData` is true exactly when the merged list
is non-empty AND strictly fewer than all selected sources are
classified failed (zero failed sources also qualifies — no "at least
one failed" requirement); and when every selected adapter rejects or
returns empty, the merged list is empty and `hasPartialData` is
false. -/
theorem hasPartialData_amended :
    (∀ (sources : List NewsSource) (articles : List NewsArticle)
        (lo er : Bool),
      ((useCombinedNews sources articles lo er).hasPartialData = true ↔
        articles ≠ [] ∧
          (failedSourcesOf sources articles).length < sources.length)) ∧
    (∀ (ts : String → Int) (env : ApiEnv) (sources : List NewsSource)
        (filters : NewsFilters),
      (∀ c, env c = .ok [] ∨ ∃ e, env c = .error e) →
      searchAllNewsList ts env sources filters = [] ∧
      ∀ lo er : Bool,
        (useCombinedNews sources (searchAllNewsList ts env sources filters)
          lo er).hasPartialData = false) := by
  constructor
  · intro sources articles lo er
    simp [useCombinedNews, List.length_pos]
  · intro ts env sources filters henv
    have hall : ∀ s : NewsSource,
        runPlannedCall env (searchSourcePlan filters s) = [] := by
      intro s
      cases hp : searchSourcePlan filters s with
      | none => rfl
      | some c =>
        rcases henv c with h | ⟨e, h⟩ <;> simp [runPlannedCall, h]
    have hflat : (sources.map fun s =>
        runPlannedCall env (searchSourcePlan filters s)).flatten = [] := by
      induction sources with
      | nil => rfl
      | cons s t ih => simp [hall s, ih]
    have hnil : searchAllNewsList ts env sources filters = [] := by
      unfold searchAllNewsList
      rw [hflat]
      rfl
    refine ⟨hnil, ?_⟩
    intro lo er
    rw [hnil]
    rfl

theorem hasPartialData_amended_witness :
    ((useCombinedNews [.guardian]
        [{ id := "a1", source := ⟨"guardian", "The Guardian"⟩, title := "T",
           description := "D", url := "u", imageUrl := "i",
           publishedAt := "2024-01-01", author := none }]
        false false).hasPartialData = true ↔
      [({ id := "a1", source := ⟨"guardian", "The Guardian"⟩, title := "T",
          description := "D", url := "u", imageUrl := "i",
          publishedAt := "2024-01-01", author := none } : NewsArticle)] ≠ [] ∧
        (failedSourcesOf [.guardian]
          [{ id := "a1", source := ⟨"guardian", "The Guardian"⟩, title := "T",
             description := "D", url := "u", imageUrl := "i",
             publishedAt := "2024-01-01", author := none }]).length < 1) ∧
    searchAllNewsList (fun _ => 0) (fun _ => .ok []) [.guardian, .nytimes] {} =
      [] ∧
    (useCombinedNews [.guardian, .nytimes]
      (searchAllNewsList (fun _ => 0) (fun _ => .ok [])
        [.guardian, .nytimes] {}) false false).hasPartialData = false :=
  ⟨hasPartialData_amended.1 [.guardian] _ false false,
    (hasPartialData_amended.2 (fun _ => 0) (fun _ => .ok [])
      [.guardian, .nytimes] {} (fun _ => Or.inl rfl)).1,
    (hasPartialData_amended.2 (fun _ => 0) (fun _ => .ok [])
      [.guardian, .nytimes] {} (fun _ => Or.inl rfl)).2 false false⟩

/-- C2 fails as literally quantified ("for every adapter outcome"): the
NewsAPI adapter passes the upstream `source.id` through, so an upstream
NewsAPI article tagged `'nytimes'` makes the heuristic count it for the
`'nytimes'` source, which then is not in `failedSources`. -/
theorem nyt_tag_mismatch_counterexample :
    ¬ (NewsSource.nytimes ∈
      (useCombinedNews [.newsapi, .nytimes]
        (searchAllNewsList (fun _ => 0)
          (envFromUpstream (fun _ => .ok []) (fun _ _ _ _ _ => .ok [])
            (fun _ _ _ _ _ => .ok
              [{ sourceId := some "nytimes", sourceName := "NYT via NewsAPI",
                 author := none, title := "T", description := "D",
                 url := "u", urlToImage := "i", publishedAt := "2024",
                 content := "c" }]))
          [.newsapi, .nytimes] {}) false false).failedSources) := by
  decide

/-- C2 amended: every article the NYT adapter produces carries the
constant `source.id = 'nyt'`, which never equals the tag `'nytimes'`;
hence whenever `'nytimes'` is among the selected sources and no
NewsAPI upstream article happens to carry source id `'nytimes'`,
`useCombinedNews` lists `'nytimes'` among `failedSources`, whatever
the adapters' outcomes (including a successful NYT fetch returning
articles). -/
theorem nyt_tag_mismatch_amended :
    (∀ docs : List NYTDoc, ∀ a ∈ fetchNYTArticles docs,
      a.source.id = "nyt") ∧
    (∀ (ts : String → Int)
        (nytApi : String → Except String (List NYTDoc))
        (guardApi : Option String → Option String → Option String →
          Option String → Option String → Except String (List GuardianArticle))
        (newsApi : Option String → Option String → Option String →
          Option String → Option String → Except String (List NewsApiArticle))
        (sources : List NewsSource) (filters : NewsFilters) (lo er : Bool),
      NewsSource.nytimes ∈ sources →
      (∀ q cat f t au arts, newsApi q cat f t au = Except.ok arts →
        ∀ u ∈ arts, jsOrOpt u.sourceId "unknown" ≠ "nytimes") →
      NewsSource.nytimes ∈
        (useCombinedNews sources
          (searchAllNewsList ts (envFromUpstream nytApi guardApi newsApi)
            sources filters) lo er).failedSources) := by
  constructor
  · intro docs a ha
    obtain ⟨d, _, _, _, rfl⟩ := mem_fetchNYTArticles docs a ha
    rfl
  · intro ts nytApi guardApi newsApi sources filters lo er hsrc hnapi
    have hnone : ∀ x ∈ searchAllNewsList ts
        (envFromUpstream nytApi guardApi newsApi) sources filters,
        x.source.id ≠ "nytimes" := by
      intro x hx
      have hx' : x ∈ (sources.map fun s =>
          runPlannedCall (envFromUpstream nytApi guardApi newsApi)
            (searchSourcePlan filters s)).flatten :=
        (sortByDateDesc_perm ts _).mem_iff.mp hx
      obtain ⟨li, hli, hxli⟩ := List.mem_flatten.mp hx'
      obtain ⟨s, _, rfl⟩ := List.mem_map.mp hli
      cases s with
      | guardian =>
        cases hg : guardApi filters.searchQuery filters.category
            filters.fromDate filters.toDate filters.author with
        | error e =>
          simp [runPlannedCall, searchSourcePlan, envFromUpstream, Except.map,
            hg] at hxli
        | ok gl =>
          simp only [runPlannedCall, searchSourcePlan, envFromUpstream,
            Except.map, hg] at hxli
          obtain ⟨g, _, rfl⟩ := mem_fetchGuardianArticles gl x hxli
          simp
      | nytimes =>
        by_cases hq : truthy filters.searchQuery = true
        · simp [runPlannedCall, searchSourcePlan, hq] at hxli
        · cases hn : nytApi (jsOrOpt filters.category "all") with
          | error e =>
            simp [runPlannedCall, searchSourcePlan, envFromUpstream,
              Except.map, hq, hn] at hxli
          | ok docs =>
            simp [runPlannedCall, searchSourcePlan, envFromUpstream,
              Except.map, hq, hn] at hxli
            obtain ⟨d, _, _, _, rfl⟩ := mem_fetchNYTArticles docs x hxli
            simp
      | newsapi =>
        cases hn : newsApi filters.searchQuery filters.category
            filters.fromDate filters.toDate filters.author with
        | error e =>
          simp [runPlannedCall, searchSourcePlan, envFromUpstream, Except.map,
            hn] at hxli
        | ok arts =>
          simp only [runPlannedCall, searchSourcePlan, envFromUpstream,
            Except.map, hn] at hxli
          obtain ⟨u, hu, rfl⟩ := mem_fetchNewsApiArticles arts x hxli
          exact hnapi _ _ _ _ _ arts hn u hu
    show NewsSource.nytimes ∈ failedSourcesOf sources
      (searchAllNewsList ts (envFromUpstream nytApi guardApi newsApi)
        sources filters)
    rw [failedSourcesOf, List.mem_filter]
    refine ⟨hsrc, ?_⟩
    have hfil : (searchAllNewsList ts (envFromUpstream nytApi guardApi newsApi)
        sources filters).filter
          (fun a => a.source.id == sourceTag .nytimes) = [] := by
      apply List.filter_eq_nil_iff.mpr
      intro a ha
      simpa [sourceTag] using hnone a ha
    rw [hfil]
    rfl

theorem nyt_tag_mismatch_amended_witness :
    NewsSource.nytimes ∈
      (useCombinedNews [.nytimes]
        (searchAllNewsList (fun _ => 0)
          (envFromUpstream
            (fun _ => .ok [{ uri := "nyt://1", title := "Big", abstract := "S",
                             url := "https://nyt/1", multimedia := none,
                             published_date := "2024", byline := none }])
            (fun _ _ _ _ _ => .ok []) (fun _ _ _ _ _ => .ok []))
          [.nytimes] {}) false false).failedSources :=
  nyt_tag_mismatch_amended.2 (fun _ => 0)
    (fun _ => .ok [{ uri := "nyt://1", title := "Big", abstract := "S",
                     url := "https://nyt/1", multimedia := none,
                     published_date := "2024", byline := none }])
    (fun _ _ _ _ _ => .ok []) (fun _ _ _ _ _ => .ok [])
    [.nytimes] {} false false (by decide)
    (by
      intro q cat f t au arts h u hu
      cases h
      exact absurd hu (List.not_mem_nil u))

/-- C3 fails as stated: the Guardian adapter copies `id`, `webUrl` and
`webPublicationDate` verbatim without any non-emptiness check, so an
upstream result with empty fields yields an Article with empty `id`,
`url` and `publishedAt`. -/
theorem adapter_invariant_counterexample :
    (fetchGuardianArticles
      [{ id := "", webTitle := "Title", webUrl := "",
         webPublicationDate := "", fields := none }]).map
      (fun a => (a.id, a.url, a.publishedAt)) = [("", "", "")] := by
  decide

/-- C3 amended: `imageUrl` is never empty — the placeholder
substitution is unconditional, for every adapter and every upstream
response, with no assumption on any other field; `id`, `title`, `url`,
`publishedAt` are verbatim copies of upstream fields, hence non-empty
whenever the corresponding upstream fields are non-empty; and the NYT
adapter's truthiness filter additionally guarantees non-empty `title`
and `description` unconditionally. -/
theorem adapter_invariant_amended :
    (∀ arts : List NewsApiArticle, ∀ a ∈ fetchNewsApiArticles arts,
      a.imageUrl ≠ "") ∧
    (∀ docs : List NYTDoc, ∀ a ∈ fetchNYTArticles docs,
      a.imageUrl ≠ "") ∧
    (∀ gl : List GuardianArticle, ∀ a ∈ fetchGuardianArticles gl,
      a.imageUrl ≠ "") ∧
    (∀ arts : List NewsApiArticle,
      (∀ u ∈ arts, u.url ≠ "" ∧ u.title ≠ "" ∧ u.publishedAt ≠ "") →
      ∀ a ∈ fetchNewsApiArticles arts,
        a.id ≠ "" ∧ a.title ≠ "" ∧ a.url ≠ "" ∧ a.publishedAt ≠ "") ∧
    (∀ docs : List NYTDoc,
      (∀ d ∈ docs, d.uri ≠ "" ∧ d.url ≠ "" ∧ d.published_date ≠ "") →
      ∀ a ∈ fetchNYTArticles docs,
        a.id ≠ "" ∧ a.title ≠ "" ∧ a.url ≠ "" ∧ a.publishedAt ≠ "") ∧
    (∀ gl : List GuardianArticle,
      (∀ g ∈ gl, g.id ≠ "" ∧ g.webTitle ≠ "" ∧ g.webUrl ≠ "" ∧
        g.webPublicationDate ≠ "") →
      ∀ a ∈ fetchGuardianArticles gl,
        a.id ≠ "" ∧ a.title ≠ "" ∧ a.url ≠ "" ∧ a.publishedAt ≠ "") ∧
    (∀ docs : List NYTDoc, ∀ a ∈ fetchNYTArticles docs,
      a.title ≠ "" ∧ a.description ≠ "") := by
  have hdef : DEFAULT_IMAGE_URL ≠ "" := by decide
  refine ⟨?_, ?_, ?_, ?_, ?_, ?_, ?_⟩
  · intro arts a ha
    obtain ⟨u, _, rfl⟩ := mem_fetchNewsApiArticles arts a ha
    exact jsOr_ne_empty _ _ hdef
  · intro docs a ha
    obtain ⟨d, _, _, _, rfl⟩ := mem_fetchNYTArticles docs a ha
    exact jsOrOpt_ne_empty _ _ hdef
  · intro gl a ha
    obtain ⟨g, _, rfl⟩ := mem_fetchGuardianArticles gl a ha
    exact jsOrOpt_ne_empty _ _ hdef
  · intro arts hup a ha
    obtain ⟨u, hu, rfl⟩ := mem_fetchNewsApiArticles arts a ha
    obtain ⟨h1, h2, h3⟩ := hup u hu
    exact ⟨h1, h2, h1, h3⟩
  · intro docs hup a ha
    obtain ⟨d, hd, ht, _, rfl⟩ := mem_fetchNYTArticles docs a ha
    obtain ⟨h1, h2, h3⟩ := hup d hd
    exact ⟨h1, ht, h2, h3⟩
  · intro gl hup a ha
    obtain ⟨g, hg, rfl⟩ := mem_fetchGuardianArticles gl a ha
    obtain ⟨h1, h2, h3, h4⟩ := hup g hg
    exact ⟨h1, h2, h3, h4⟩
  · intro docs a ha
    obtain ⟨d, _, ht, habs, rfl⟩ := mem_fetchNYTArticles docs a ha
    exact ⟨ht, habs⟩

theorem adapter_invariant_amended_witness :
    (({ id := "", source := ⟨"guardian", "The Guardian"⟩, title := "",
        description := "", url := "", imageUrl := DEFAULT_IMAGE_URL,
        publishedAt := "", author := none } : NewsArticle).imageUrl ≠ "") ∧
    (({ id := "https://u", source := ⟨"bbc-news", "BBC"⟩, title := "T",
        description := "D", url := "https://u",
        imageUrl := DEFAULT_IMAGE_URL, publishedAt := "2024-02-02",
        author := none } : NewsArticle).id ≠ "" ∧
      ({ id := "https://u", source := ⟨"bbc-news", "BBC"⟩, title := "T",
         description := "D", url := "https://u",
         imageUrl := DEFAULT_IMAGE_URL, publishedAt := "2024-02-02",
         author := none } : NewsArticle).title ≠ "" ∧
      ({ id := "https://u", source := ⟨"bbc-news", "BBC"⟩, title := "T",
         description := "D", url := "https://u",
         imageUrl := DEFAULT_IMAGE_URL, publishedAt := "2024-02-02",
         author := none } : NewsArticle).url ≠ "" ∧
      ({ id := "https://u", source := ⟨"bbc-news", "BBC"⟩, title := "T",
         description := "D", url := "https://u",
         imageUrl := DEFAULT_IMAGE_URL, publishedAt := "2024-02-02",
         author := none } : NewsArticle).publishedAt ≠ "") ∧
    (({ id := "nyt://1", source := ⟨"nyt", "New York Times"⟩, title := "T",
        description := "A", url := "https://n", imageUrl := "https://img",
        publishedAt := "2024-03-03", author := none } : NewsArticle).title ≠ "" ∧
      ({ id := "nyt://1", source := ⟨"nyt", "New York Times"⟩, title := "T",
         description := "A", url := "https://n", imageUrl := "https://img",
         publishedAt := "2024-03-03",
         author := none } : NewsArticle).description ≠ "") :=
  ⟨adapter_invariant_amended.2.2.1
      [{ id := "", webTitle := "", webUrl := "", webPublicationDate := "",
         fields := none }]
      _ (by decide),
    adapter_invariant_amended.2.2.2.1
      [{ sourceId := some "bbc-news", sourceName := "BBC", author := none,
         title := "T", description := "D", url := "https://u",
         urlToImage := "", publishedAt := "2024-02-02", content := "c" }]
      (by decide) _ (by decide),
    (adapter_invariant_amended.2.2.2.2.2.2
      [{ uri := "nyt://1", title := "T", abstract := "A", url := "https://n",
         multimedia := some [{ url := "https://img" }],
         published_date := "2024-03-03", byline := none }]
      _ (by decide))⟩

end NewsAggregator
